import Mathlib

/-!
Verification development for the e-voting backend (FastAPI + SQLAlchemy).

The Lean definitions below are a shallow embedding of the application-level
logic of the repository: each SQLAlchemy table is a Lean structure, the
database is a record of lists of rows (with per-table autoincrement
counters), and each HTTP endpoint handler is a pure function from the
database and the request arguments to a response value paired with the
resulting database.  ORM queries (`query(...).filter(...).first()`,
`.count()`, `.all()`) are embedded as `List.find?`, `List.filter` /
`List.length`, and `List.filter` respectively.  The uniform response
envelope `StandardResponse(status, data, error, message)` is embedded as
`ApiResult`: `.failure e m` is an envelope with `status=False`, `error=e`,
`message=m`; `.success d m` is an envelope with `status=True`; and
`.httpError c d` stands for an `HTTPException(c, d)` raised by a
dependency (auth / role gate) before the handler body runs.

Sources embedded: `app/models/models.py` (data model),
`app/routes/elections.py` (vote casting, results aggregation, election /
position creation), `app/routes/admin.py` (admin management endpoints),
`app/routes/auth.py` and `app/services/auth.py` (registration, active-user
dependency), `app/core/roles.py` (role gates).
-/

namespace EVoting

/-- UserRole enum from app/models/models.py (values "user", "admin",
"super_admin"). -/
inductive UserRole where
  | user
  | admin
  | super_admin
deriving DecidableEq, Repr

/-- The 37 Nigerian states from the State enum in app/models/models.py. -/
inductive State where
  | abia | adamawa | akwa_ibom | anambra | bauchi | bayelsa | benue | borno
  | cross_river | delta | ebonyi | edo | ekiti | enugu | fct | gombe | imo
  | jigawa | kaduna | kano | katsina | kebbi | kogi | kwara | lagos
  | nasarawa | niger | ogun | ondo | osun | oyo | plateau | rivers | sokoto
  | taraba | yobe | zamfara
deriving DecidableEq, Repr

/-- The `.value` string of each State enum member (models.py lines 20-57). -/
def stateValue : State → String
  | .abia => "Abia"
  | .adamawa => "Adamawa"
  | .akwa_ibom => "Akwa Ibom"
  | .anambra => "Anambra"
  | .bauchi => "Bauchi"
  | .bayelsa => "Bayelsa"
  | .benue => "Benue"
  | .borno => "Borno"
  | .cross_river => "Cross River"
  | .delta => "Delta"
  | .ebonyi => "Ebonyi"
  | .edo => "Edo"
  | .ekiti => "Ekiti"
  | .enugu => "Enugu"
  | .fct => "Federal Capital Territory"
  | .gombe => "Gombe"
  | .imo => "Imo"
  | .jigawa => "Jigawa"
  | .kaduna => "Kaduna"
  | .kano => "Kano"
  | .katsina => "Katsina"
  | .kebbi => "Kebbi"
  | .kogi => "Kogi"
  | .kwara => "Kwara"
  | .lagos => "Lagos"
  | .nasarawa => "Nasarawa"
  | .niger => "Niger"
  | .ogun => "Ogun"
  | .ondo => "Ondo"
  | .osun => "Osun"
  | .oyo => "Oyo"
  | .plateau => "Plateau"
  | .rivers => "Rivers"
  | .sokoto => "Sokoto"
  | .taraba => "Taraba"
  | .yobe => "Yobe"
  | .zamfara => "Zamfara"

/-- ElectionType enum from app/models/models.py. -/
inductive ElectionType where
  | federal
  | state
  | local
deriving DecidableEq, Repr

/-- A row of the `political_parties` table (models.py PoliticalParty). -/
structure PoliticalPartyRec where
  id : Nat
  name : String
  acronym : String
  logo_url : Option String := none
  description : Option String := none
deriving DecidableEq, Repr

/-- A row of the `users` table (models.py User).  Columns not used by any
endpoint embedded here (date_of_birth, timestamps, profile_image_url) are
omitted. -/
structure UserRec where
  id : Nat
  nin : String
  email : String
  full_name : String
  state_of_residence : State
  hashed_password : String
  role : UserRole
  is_active : Bool := true
  is_verified : Bool := false
deriving DecidableEq, Repr

/-- A row of the `elections` table (models.py Election).  Timestamps are
embedded as integers. -/
structure ElectionRec where
  id : Nat
  title : String
  description : Option String := none
  election_type : ElectionType
  state : Option State := none
  is_active : Bool := false
  start_date : Option Int := none
  end_date : Option Int := none
deriving DecidableEq, Repr

/-- A row of the `positions` table (models.py Position). -/
structure PositionRec where
  id : Nat
  title : String
  election_id : Nat
deriving DecidableEq, Repr

/-- A row of the `candidates` table (models.py Candidate, lines 178-191):
columns id, name, bio, profile_image_url, party_id, position_id.  Note
there is NO `user_id` and NO `manifestos` column. -/
structure CandidateRec where
  id : Nat
  name : String
  bio : Option String := none
  profile_image_url : Option String := none
  party_id : Option Nat := none
  position_id : Nat
deriving DecidableEq, Repr

/-- A row of the `votes` table (models.py Vote), which carries the
`UniqueConstraint('user_id', 'election_id')`. -/
structure VoteRec where
  id : Nat
  user_id : Nat
  candidate_id : Nat
  election_id : Nat
  encrypted_vote : String
deriving DecidableEq, Repr

/-- The database: one list of rows per table, plus the autoincrement
counter for each table that the embedded endpoints insert into. -/
structure DB where
  users : List UserRec := []
  elections : List ElectionRec := []
  positions : List PositionRec := []
  candidates : List CandidateRec := []
  votes : List VoteRec := []
  parties : List PoliticalPartyRec := []
  nextUserId : Nat := 1
  nextElectionId : Nat := 1
  nextPositionId : Nat := 1
  nextVoteId : Nat := 1
  nextPartyId : Nat := 1
deriving DecidableEq, Repr

/-- Embedding of the uniform response envelope: `failure` / `success` are
`StandardResponse` with `status=False` / `status=True`; `httpError` is an
`HTTPException` raised by a dependency before the handler runs. -/
inductive ApiResult (α : Type) where
  | httpError (code : Nat) (detail : String)
  | failure (error : String) (message : String)
  | success (data : α) (message : String)
deriving DecidableEq, Repr

/-- An `ApiResult` counts as a success exactly when it is the embedding of
a `StandardResponse` with `status=True`. -/
def ApiResult.isSuccess {α : Type} : ApiResult α → Bool
  | .success _ _ => true
  | _ => false

/-- Update the first element of a list satisfying `p` (the embedding of
mutating the object returned by `.filter(...).first()` and committing). -/
def updateFirst {α : Type} (p : α → Bool) (f : α → α) : List α → List α
  | [] => []
  | x :: xs => if p x then f x :: xs else x :: updateFirst p f xs

/-- Remove the first element of a list satisfying `p` (the embedding of
`db.delete(obj)` on the object returned by `.filter(...).first()`). -/
def removeFirst {α : Type} (p : α → Bool) : List α → List α
  | [] => []
  | x :: xs => if p x then xs else x :: removeFirst p (xs)

-- ROLE GATES (app/core/roles.py)

/-- Role gate get_current_admin (roles.py lines 8-18): raises HTTP 403
unless the caller's role is admin or super_admin. -/
def get_current_admin (current_user : UserRec) : Except (Nat × String) UserRec :=
  if !(current_user.role == UserRole.admin || current_user.role == UserRole.super_admin) then
    .error (403, "Insufficient permissions. Admin access required.")
  else
    .ok current_user

/-- Role gate get_current_super_admin (roles.py lines 20-30): raises HTTP
403 unless the caller's role is super_admin. -/
def get_current_super_admin (current_user : UserRec) : Except (Nat × String) UserRec :=
  if !(current_user.role == UserRole.super_admin) then
    .error (403, "Insufficient permissions. Super Admin access required.")
  else
    .ok current_user

-- VOTE CASTING (app/routes/elections.py, cast_vote, lines 102-194)

/-- The election lookup of cast_vote (elections.py lines 112-115):
`query(Election).filter(Election.id == election_id, Election.is_active == True).first()`. -/
def electionLookup (db : DB) (election_id : Nat) : Option ElectionRec :=
  db.elections.find? (fun e => e.id == election_id && e.is_active)

/-- The already-voted lookup of cast_vote (elections.py lines 126-129):
`query(Vote).filter(Vote.user_id == current_user.id, Vote.election_id == election_id).first()`. -/
def existingVoteLookup (db : DB) (user_id election_id : Nat) : Option VoteRec :=
  db.votes.find? (fun v => v.user_id == user_id && v.election_id == election_id)

/-- The candidate lookup of cast_vote (elections.py lines 140-143):
`query(Candidate).join(Position).filter(Candidate.id == candidate_id,
Position.election_id == election_id).first()` — the join is on
`Candidate.position_id == Position.id`. -/
def candidateInElectionLookup (db : DB) (candidate_id election_id : Nat) :
    Option CandidateRec :=
  db.candidates.find? (fun c =>
    c.id == candidate_id &&
    db.positions.any (fun p => p.id == c.position_id && p.election_id == election_id))

/-- The Vote row constructed by cast_vote (elections.py lines 164-169),
with the placeholder `encrypted_vote` string. -/
def mkVote (vote_id user_id candidate_id election_id : Nat) : VoteRec :=
  { id := vote_id
    user_id := user_id
    candidate_id := candidate_id
    election_id := election_id
    encrypted_vote :=
      "encrypted_" ++ toString user_id ++ "_" ++ toString candidate_id }

/-- Endpoint POST /elections/\x7belection_id\x7d/vote (elections.py
cast_vote, lines 102-194), composed with its get_current_active_user
dependency (auth.py lines 30-33), which raises HTTP 400 for an inactive
user before the handler body runs.  Returns the response and the resulting
database. -/
def cast_vote (db : DB) (election_id : Nat) (candidate_id : Nat)
    (current_user : UserRec) : ApiResult Nat × DB :=
  if !current_user.is_active then
    (.httpError 400 "Inactive user", db)
  else
    match electionLookup db election_id with
    | none => (.failure "Election not found or not active" "Vote failed", db)
    | some election =>
      match existingVoteLookup db current_user.id election_id with
      | some _ =>
        (.failure "You have already voted in this election" "Vote failed", db)
      | none =>
        match candidateInElectionLookup db candidate_id election_id with
        | none =>
          (.failure "Candidate not found in this election" "Vote failed", db)
        | some _ =>
          -- elections.py lines 153-161: the state check runs only when
          -- election_type != FEDERAL and election.state is truthy (non-NULL)
          match election.state with
          | some s =>
            if election.election_type != ElectionType.federal &&
                current_user.state_of_residence != s then
              (.failure
                ("Only residents of " ++ stateValue s ++
                  " can vote in this election")
                "Vote failed", db)
            else
              (.success db.nextVoteId "Vote cast successfully",
               { db with
                  votes :=
                    db.votes ++
                      [mkVote db.nextVoteId current_user.id candidate_id election_id]
                  nextVoteId := db.nextVoteId + 1 })
          | none =>
            (.success db.nextVoteId "Vote cast successfully",
             { db with
                votes :=
                  db.votes ++
                    [mkVote db.nextVoteId current_user.id candidate_id election_id]
                nextVoteId := db.nextVoteId + 1 })

-- REGISTRATION (app/routes/auth.py register_user + app/services/auth.py
-- AuthService.create_user)

/-- The payload of a validated UserCreate request body (schemas.py
UserBase/UserCreate, lines 47-92).  The `role` field of UserBase is
declared `role: UserRole = UserRole.USER`, so a request that omits the
field gets role "user" and a request may supply any of the three roles
(the normalize_role validator accepts every UserRole value string). -/
structure UserCreateData where
  nin : String
  email : String
  full_name : String
  state_of_residence : State
  password : String
  role : UserRole := UserRole.user
deriving DecidableEq, Repr

/-- The declared default of the `role` field of UserBase (schemas.py line
53: `role: UserRole = UserRole.USER`), used when a register request omits
the field. -/
def UserBase.role_default : UserRole := UserRole.user

/-- Password hashing (app/core/security.py get_password_hash, a SHA-256
wrapper).  The hash algorithm itself is out of scope; the embedding only
needs that the stored credential is a function of the password. -/
def get_password_hash (password : String) : String :=
  "sha256_peppered:" ++ password

/-- AuthService.create_user (services/auth.py lines 37-77): reject when a
user with the same email or NIN exists (distinguishing the two error
messages in the order the code checks them), otherwise insert a new User
whose `role` is taken from the request (`role=user_data.role`). -/
def create_user (db : DB) (user_data : UserCreateData) :
    Except String (UserRec × DB) :=
  match db.users.find? (fun u => u.email == user_data.email || u.nin == user_data.nin) with
  | some existing_user =>
    if existing_user.email == user_data.email then
      .error "Email already registered"
    else
      .error "NIN already registered"
  | none =>
    let user : UserRec :=
      { id := db.nextUserId
        nin := user_data.nin
        email := user_data.email
        full_name := user_data.full_name
        state_of_residence := user_data.state_of_residence
        hashed_password := get_password_hash user_data.password
        role := user_data.role
        is_active := true
        is_verified := false }
    .ok (user, { db with users := db.users ++ [user], nextUserId := db.nextUserId + 1 })

/-- Endpoint POST /auth/register (auth.py register_user, lines 81-125): an
unauthenticated endpoint that calls AuthService.create_user and wraps an
HTTPException into a failure envelope. -/
def register_user (db : DB) (user_data : UserCreateData) : ApiResult UserRec × DB :=
  match create_user db user_data with
  | .error detail => (.failure detail "Registration failed", db)
  | .ok (user, db') => (.success user "User created successfully", db')

-- ADMIN USER MANAGEMENT (app/routes/admin.py)

/-- Endpoint PUT /admin/users/\x7buser_id\x7d/role (admin.py
update_user_role, lines 222-270), gated by get_current_super_admin: the
caller may not modify their own role; otherwise the first user with the
given id (if any) gets the new role. -/
def update_user_role (db : DB) (user_id : Nat) (new_role : UserRole)
    (current_user : UserRec) : ApiResult UserRec × DB :=
  match get_current_super_admin current_user with
  | .error (code, detail) => (.httpError code detail, db)
  | .ok current_user =>
    if user_id == current_user.id then
      (.failure "Cannot modify your own role" "Role update failed", db)
    else
      match db.users.find? (fun u => u.id == user_id) with
      | none => (.failure "User not found" "Role update failed", db)
      | some user =>
        let updated := { user with role := new_role }
        (.success updated ("User role updated"),
         { db with users := updateFirst (fun u => u.id == user_id)
                      (fun u => { u with role := new_role }) db.users })

/-- Endpoint PUT /admin/users/\x7buser_id\x7d/status (admin.py
update_user_status, lines 272-320), gated by get_current_admin: the
caller may not deactivate their own account (self-activation is not
blocked); otherwise the first user with the given id gets the new
is_active flag. -/
def update_user_status (db : DB) (user_id : Nat) (is_active : Bool)
    (current_user : UserRec) : ApiResult UserRec × DB :=
  match get_current_admin current_user with
  | .error (code, detail) => (.httpError code detail, db)
  | .ok current_user =>
    if user_id == current_user.id && !is_active then
      (.failure "Cannot deactivate your own account" "Status update failed", db)
    else
      match db.users.find? (fun u => u.id == user_id) with
      | none => (.failure "User not found" "Status update failed", db)
      | some user =>
        let updated := { user with is_active := is_active }
        (.success updated "User status updated",
         { db with users := updateFirst (fun u => u.id == user_id)
                      (fun u => { u with is_active := is_active }) db.users })

/-- Endpoint DELETE /admin/users/\x7buser_id\x7d (admin.py delete_user,
lines 322-365), gated by get_current_super_admin: the caller may not
delete their own account; otherwise the first user with the given id is
deleted. -/
def delete_user (db : DB) (user_id : Nat) (current_user : UserRec) :
    ApiResult Nat × DB :=
  match get_current_super_admin current_user with
  | .error (code, detail) => (.httpError code detail, db)
  | .ok current_user =>
    if user_id == current_user.id then
      (.failure "Cannot delete your own account" "User deletion failed", db)
    else
      match db.users.find? (fun u => u.id == user_id) with
      | none => (.failure "User not found" "User deletion failed", db)
      | some _ =>
        (.success user_id "User deleted successfully",
         { db with users := removeFirst (fun u => u.id == user_id) db.users })

-- POLITICAL PARTY MANAGEMENT (app/routes/admin.py)

/-- Endpoint POST /admin/parties (admin.py create_political_party, lines
368-428), gated by get_current_admin: reject when a party with the same
name or acronym exists, otherwise insert the party.  Logo upload is a
filesystem side effect outside the database embedding. -/
def create_political_party (db : DB) (name acronym : String)
    (description : Option String) (logo_url : Option String)
    (current_user : UserRec) : ApiResult PoliticalPartyRec × DB :=
  match get_current_admin current_user with
  | .error (code, detail) => (.httpError code detail, db)
  | .ok _ =>
    match db.parties.find? (fun p => p.name == name || p.acronym == acronym) with
    | some _ =>
      (.failure "Political party with this name or acronym already exists"
        "Party creation failed", db)
    | none =>
      let party : PoliticalPartyRec :=
        { id := db.nextPartyId, name := name, acronym := acronym
          logo_url := logo_url, description := description }
      (.success party "Political party created successfully",
       { db with parties := db.parties ++ [party], nextPartyId := db.nextPartyId + 1 })

/-- Endpoint DELETE /admin/parties/\x7bparty_id\x7d (admin.py
delete_political_party, lines 539-586), gated by get_current_admin:
reject when the party does not exist or when any candidate references it
(`query(Candidate).filter(Candidate.party_id == party_id).count() > 0`),
otherwise delete the party. -/
def delete_political_party (db : DB) (party_id : Nat) (current_user : UserRec) :
    ApiResult Nat × DB :=
  match get_current_admin current_user with
  | .error (code, detail) => (.httpError code detail, db)
  | .ok _ =>
    match db.parties.find? (fun p => p.id == party_id) with
    | none => (.failure "Political party not found" "Party deletion failed", db)
    | some _ =>
      if (db.candidates.filter (fun c => c.party_id == some party_id)).length > 0 then
        (.failure
          ("Cannot delete party with " ++
            toString (db.candidates.filter (fun c => c.party_id == some party_id)).length ++
            " associated candidates")
          "Party deletion failed", db)
      else
        (.success party_id "Political party deleted successfully",
         { db with parties := removeFirst (fun p => p.id == party_id) db.parties })

-- CANDIDATE MANAGEMENT (app/routes/admin.py)

/-- The exception message produced by the create_candidate handler: after
the user-existence check passes, the handler evaluates
`Candidate.user_id` (admin.py line 627) — but the Candidate model
(models.py lines 178-191) defines no `user_id` attribute, so Python
raises AttributeError, which the handler's `except Exception` block turns
into a failure envelope. -/
def candidateUserIdAttributeError : String :=
  "type object Candidate has no attribute user_id"

/-- Endpoint POST /admin/candidates (admin.py create_candidate, lines
590-744), gated by get_current_admin.  The handler first checks that the
target user exists; the very next statement filters on
`Candidate.user_id`, an attribute the Candidate model does not define, so
every request that passes the user check ends in the exception branch and
no request can reach the insert: no Candidate row is ever created. -/
def create_candidate (db : DB) (user_id : Nat) (bio : Option String)
    (party_id : Option Nat) (position_id : Nat) (manifestos : Option String)
    (current_user : UserRec) : ApiResult Nat × DB :=
  match get_current_admin current_user with
  | .error (code, detail) => (.httpError code detail, db)
  | .ok _ =>
    match db.users.find? (fun u => u.id == user_id) with
    | none => (.failure "User not found" "Candidate creation failed", db)
    | some _ =>
      -- admin.py line 627 raises AttributeError: rolled back, no insert
      (.failure candidateUserIdAttributeError "Error creating candidate", db)

/-- Endpoint DELETE /admin/candidates/\x7bcandidate_id\x7d (admin.py
delete_candidate, lines 973-1018), gated by get_current_admin: reject
when the candidate does not exist or has received votes
(`query(Vote).filter(Vote.candidate_id == candidate_id).count() > 0`),
otherwise delete the candidate. -/
def delete_candidate (db : DB) (candidate_id : Nat) (current_user : UserRec) :
    ApiResult Nat × DB :=
  match get_current_admin current_user with
  | .error (code, detail) => (.httpError code detail, db)
  | .ok _ =>
    match db.candidates.find? (fun c => c.id == candidate_id) with
    | none => (.failure "Candidate not found" "Candidate deletion failed", db)
    | some _ =>
      if (db.votes.filter (fun v => v.candidate_id == candidate_id)).length > 0 then
        (.failure
          ("Cannot delete candidate with " ++
            toString (db.votes.filter (fun v => v.candidate_id == candidate_id)).length ++
            " votes. Deactivate instead.")
          "Candidate deletion failed", db)
      else
        (.success candidate_id "Candidate deleted successfully",
         { db with candidates := removeFirst (fun c => c.id == candidate_id) db.candidates })

-- ELECTION MANAGEMENT

/-- Endpoint POST /elections (elections.py create_election, lines
231-271), gated by get_current_admin: a state/local election must carry a
state; otherwise the election is inserted. -/
def create_election (db : DB) (title : String) (description : Option String)
    (election_type : ElectionType) (state : Option State) (is_active : Bool)
    (start_date end_date : Option Int) (current_user : UserRec) :
    ApiResult ElectionRec × DB :=
  match get_current_admin current_user with
  | .error (code, detail) => (.httpError code detail, db)
  | .ok _ =>
    if (election_type == ElectionType.state || election_type == ElectionType.local) &&
        state == none then
      (.failure "State is required for state and local elections"
        "Election creation failed", db)
    else
      let election : ElectionRec :=
        { id := db.nextElectionId, title := title, description := description
          election_type := election_type, state := state, is_active := is_active
          start_date := start_date, end_date := end_date }
      (.success election "Election created successfully",
       { db with elections := db.elections ++ [election]
                 nextElectionId := db.nextElectionId + 1 })

/-- Endpoint POST /admin/elections (admin.py create_election, lines
1129-1196), gated by get_current_admin.  Unlike the elections.py
creation endpoint it does NOT require a state for state/local elections:
its only validation is that start_date < end_date when both are given.
(`election_type` arrives as a form string; a string that is not a valid
ElectionType value fails at commit with no insert, so the embedding takes
the already-valid enum.)  `is_active` defaults to True in the form. -/
def admin_create_election (db : DB) (title : String) (description : Option String)
    (election_type : ElectionType) (state : Option State) (is_active : Bool)
    (start_date end_date : Option Int) (current_user : UserRec) :
    ApiResult ElectionRec × DB :=
  match get_current_admin current_user with
  | .error (code, detail) => (.httpError code detail, db)
  | .ok _ =>
    match start_date, end_date with
    | some sd, some ed =>
      if sd ≥ ed then
        (.failure "End date must be after start date" "Election creation failed", db)
      else
        let election : ElectionRec :=
          { id := db.nextElectionId, title := title, description := description
            election_type := election_type, state := state, is_active := is_active
            start_date := start_date, end_date := end_date }
        (.success election "Election created successfully",
         { db with elections := db.elections ++ [election]
                   nextElectionId := db.nextElectionId + 1 })
    | _, _ =>
      let election : ElectionRec :=
        { id := db.nextElectionId, title := title, description := description
          election_type := election_type, state := state, is_active := is_active
          start_date := start_date, end_date := end_date }
      (.success election "Election created successfully",
       { db with elections := db.elections ++ [election]
                 nextElectionId := db.nextElectionId + 1 })

/-- Endpoint POST /positions (elections.py create_position, lines
273-303), gated by get_current_admin: inserts the position with no
validation. -/
def create_position (db : DB) (title : String) (election_id : Nat)
    (current_user : UserRec) : ApiResult PositionRec × DB :=
  match get_current_admin current_user with
  | .error (code, detail) => (.httpError code detail, db)
  | .ok _ =>
    let position : PositionRec :=
      { id := db.nextPositionId, title := title, election_id := election_id }
    (.success position "Position created successfully",
     { db with positions := db.positions ++ [position]
               nextPositionId := db.nextPositionId + 1 })

/-- The field updates applied by admin.py update_election (lines
1221-1234) to the fetched election: each optional form field overwrites
the column when provided. -/
def applyElectionUpdates (e : ElectionRec) (title : Option String)
    (description : Option String) (election_type : Option ElectionType)
    (state : Option State) (is_active : Option Bool)
    (start_date end_date : Option Int) : ElectionRec :=
  let e := match title with | some t => { e with title := t } | none => e
  let e := match description with | some d => { e with description := some d } | none => e
  let e := match election_type with | some t => { e with election_type := t } | none => e
  let e := match state with | some s => { e with state := some s } | none => e
  let e := match is_active with | some a => { e with is_active := a } | none => e
  let e := match start_date with | some d => { e with start_date := some d } | none => e
  let e := match end_date with | some d => { e with end_date := some d } | none => e
  e

/-- Endpoint PUT /admin/elections/\x7belection_id\x7d (admin.py
update_election, lines 1196-1264), gated by get_current_admin: fetch the
election, apply the provided field updates, reject (discarding the
uncommitted session changes) when the resulting dates are out of order,
otherwise commit.  This is the endpoint that can deactivate an election
that already has votes. -/
def update_election (db : DB) (election_id : Nat) (title : Option String)
    (description : Option String) (election_type : Option ElectionType)
    (state : Option State) (is_active : Option Bool)
    (start_date end_date : Option Int) (current_user : UserRec) :
    ApiResult ElectionRec × DB :=
  match get_current_admin current_user with
  | .error (code, detail) => (.httpError code detail, db)
  | .ok _ =>
    match db.elections.find? (fun e => e.id == election_id) with
    | none => (.failure "Election not found" "Election update failed", db)
    | some election =>
      match (applyElectionUpdates election title description
              election_type state is_active start_date end_date).start_date,
            (applyElectionUpdates election title description
              election_type state is_active start_date end_date).end_date with
      | some sd, some ed =>
        if sd ≥ ed then
          (.failure "End date must be after start date" "Election update failed", db)
        else
          (.success (applyElectionUpdates election title description
              election_type state is_active start_date end_date)
            "Election updated successfully",
           { db with elections := updateFirst (fun e => e.id == election_id)
                        (fun e => applyElectionUpdates e title description
                          election_type state is_active start_date end_date)
                        db.elections })
      | _, _ =>
        (.success (applyElectionUpdates election title description
            election_type state is_active start_date end_date)
          "Election updated successfully",
         { db with elections := updateFirst (fun e => e.id == election_id)
                      (fun e => applyElectionUpdates e title description
                        election_type state is_active start_date end_date)
                      db.elections })

/-- Endpoint DELETE /admin/elections/\x7belection_id\x7d (admin.py
delete_election, lines 1273-1330), gated by get_current_admin: reject
when the election does not exist or has votes
(`query(Vote).filter(Vote.election_id == election_id).count() > 0`);
otherwise delete the candidates of each of its positions, the positions,
and the election.  The votes table is never touched. -/
def delete_election (db : DB) (election_id : Nat) (current_user : UserRec) :
    ApiResult Nat × DB :=
  match get_current_admin current_user with
  | .error (code, detail) => (.httpError code detail, db)
  | .ok _ =>
    match db.elections.find? (fun e => e.id == election_id) with
    | none => (.failure "Election not found" "Election deletion failed", db)
    | some _ =>
      if (db.votes.filter (fun v => v.election_id == election_id)).length > 0 then
        (.failure
          ("Cannot delete election with " ++
            toString (db.votes.filter (fun v => v.election_id == election_id)).length ++
            " votes")
          "Election deletion failed", db)
      else
        (.success election_id "Election deleted successfully",
         { db with
            candidates := db.candidates.filter (fun c =>
              !((db.positions.filter (fun p => p.election_id == election_id)).any
                  (fun p => p.id == c.position_id)))
            positions := db.positions.filter (fun p => !(p.election_id == election_id))
            elections := removeFirst (fun e => e.id == election_id) db.elections })

-- ELECTION RESULTS (app/routes/elections.py get_election_results, lines
-- 338-429)

/-- The number of votes recorded for a candidate (elections.py line 366:
`query(Vote).filter(Vote.candidate_id == candidate.id).count()`). -/
def countVotesFor (db : DB) (candidate_id : Nat) : Nat :=
  (db.votes.filter (fun v => v.candidate_id == candidate_id)).length

/-- The candidates of an election (elections.py lines 359-361:
`query(Candidate).join(Position).filter(Position.election_id == election_id)`). -/
def electionCandidates (db : DB) (election_id : Nat) : List CandidateRec :=
  db.candidates.filter (fun c =>
    db.positions.any (fun p => p.id == c.position_id && p.election_id == election_id))

/-- The party row reachable from a candidate through the `party`
relationship (joinedload of Candidate.party): `None` when the candidate
has no party_id or the referenced row does not exist. -/
def partyOf (db : DB) (c : CandidateRec) : Option PoliticalPartyRec :=
  c.party_id.bind (fun pid => db.parties.find? (fun p => p.id == pid))

/-- One entry of the `party_results` dict built by get_election_results
(elections.py lines 364-385), keyed by
`candidate.party.id if candidate.party else 0`. -/
structure PartyBucket where
  party_id : Nat
  party_name : String
  party_acronym : String
  total_votes : Nat
  candidates : List (CandidateRec × Nat)
deriving DecidableEq, Repr

/-- Update of the `party_results` dict for one candidate: if a bucket for
the party key exists, add the candidate's votes to its total and append
the candidate; otherwise create the bucket (the Python dict preserves
insertion order, so the embedding is an in-order association list). -/
def addToBucket (buckets : List PartyBucket) (pid : Nat) (pname pacronym : String)
    (c : CandidateRec) (votes : Nat) : List PartyBucket :=
  match buckets with
  | [] =>
    [{ party_id := pid, party_name := pname, party_acronym := pacronym
       total_votes := votes, candidates := [(c, votes)] }]
  | b :: rest =>
    if b.party_id == pid then
      { b with total_votes := b.total_votes + votes
               candidates := b.candidates ++ [(c, votes)] } :: rest
    else
      b :: addToBucket rest pid pname pacronym c votes

/-- The loop body of elections.py lines 365-385 for one candidate. -/
def addCandidateToResults (db : DB) (buckets : List PartyBucket)
    (c : CandidateRec) : List PartyBucket :=
  let candidate_votes := countVotesFor db c.id
  match partyOf db c with
  | some party => addToBucket buckets party.id party.name party.acronym c candidate_votes
  | none => addToBucket buckets 0 "Independent" "IND" c candidate_votes

/-- The fully built `party_results` dict for an election. -/
def partyResults (db : DB) (election_id : Nat) : List PartyBucket :=
  (electionCandidates db election_id).foldl (addCandidateToResults db) []

/-- One entry of the response's `party_results` array (elections.py lines
391-413), with the percentage computed as
`total_votes / election_total * 100` when the election has votes and `0`
otherwise (line 403).  The percentage is embedded as an exact rational. -/
structure PartyResultOut where
  party_id : Nat
  party_name : String
  party_acronym : String
  total_votes : Nat
  percentage : ℚ
  candidates : List (CandidateRec × Nat)
deriving DecidableEq, Repr

/-- The response payload of get_election_results. -/
structure ResultsData where
  election_id : Nat
  total_votes : Nat
  party_results : List PartyResultOut
deriving DecidableEq, Repr

/-- Endpoint GET /elections/\x7belection_id\x7d/results (elections.py
get_election_results, lines 338-429), a public read-only endpoint:
reject when the election does not exist, otherwise report the election's
total vote count and, per party bucket, the bucket's total votes,
percentage share, and candidates with their individual vote counts. -/
def get_election_results (db : DB) (election_id : Nat) : ApiResult ResultsData :=
  match db.elections.find? (fun e => e.id == election_id) with
  | none => .failure "Election not found" "Results retrieval failed"
  | some election =>
    let total_votes := (db.votes.filter (fun v => v.election_id == election_id)).length
    let buckets := partyResults db election_id
    .success
      { election_id := election.id
        total_votes := total_votes
        party_results := buckets.map (fun b =>
          { party_id := b.party_id
            party_name := b.party_name
            party_acronym := b.party_acronym
            total_votes := b.total_votes
            percentage :=
              if total_votes > 0 then
                (b.total_votes : ℚ) / (total_votes : ℚ) * 100
              else 0
            candidates := b.candidates }) }
      "Election results retrieved successfully"

-- API OPERATIONS AS STATE TRANSITIONS

/-- One request to any of the embedded mutating API endpoints, with its
arguments and its (authenticated) caller.  These are all of the
database-mutating operations of the application's routers embedded above;
in particular `castVote` is the only operation in the entire API that
writes to the votes table. -/
inductive ApiOp where
  | castVote (election_id candidate_id : Nat) (user : UserRec)
  | register (user_data : UserCreateData)
  | updateUserRole (user_id : Nat) (new_role : UserRole) (caller : UserRec)
  | updateUserStatus (user_id : Nat) (is_active : Bool) (caller : UserRec)
  | deleteUser (user_id : Nat) (caller : UserRec)
  | createParty (name acronym : String) (description logo_url : Option String)
      (caller : UserRec)
  | deleteParty (party_id : Nat) (caller : UserRec)
  | createCandidate (user_id : Nat) (bio : Option String) (party_id : Option Nat)
      (position_id : Nat) (manifestos : Option String) (caller : UserRec)
  | deleteCandidate (candidate_id : Nat) (caller : UserRec)
  | createElection (title : String) (description : Option String)
      (election_type : ElectionType) (state : Option State) (is_active : Bool)
      (start_date end_date : Option Int) (caller : UserRec)
  | adminCreateElection (title : String) (description : Option String)
      (election_type : ElectionType) (state : Option State) (is_active : Bool)
      (start_date end_date : Option Int) (caller : UserRec)
  | createPosition (title : String) (election_id : Nat) (caller : UserRec)
  | updateElection (election_id : Nat) (title description : Option String)
      (election_type : Option ElectionType) (state : Option State)
      (is_active : Option Bool) (start_date end_date : Option Int)
      (caller : UserRec)
  | deleteElection (election_id : Nat) (caller : UserRec)

/-- The database state after serving one API request (the response is
discarded). -/
def applyOp (op : ApiOp) (db : DB) : DB :=
  match op with
  | .castVote eid cid u => (cast_vote db eid cid u).2
  | .register d => (register_user db d).2
  | .updateUserRole uid r cu => (update_user_role db uid r cu).2
  | .updateUserStatus uid a cu => (update_user_status db uid a cu).2
  | .deleteUser uid cu => (delete_user db uid cu).2
  | .createParty n a d l cu => (create_political_party db n a d l cu).2
  | .deleteParty pid cu => (delete_political_party db pid cu).2
  | .createCandidate uid b pid pos m cu => (create_candidate db uid b pid pos m cu).2
  | .deleteCandidate cid cu => (delete_candidate db cid cu).2
  | .createElection t d ty s a sd ed cu => (create_election db t d ty s a sd ed cu).2
  | .adminCreateElection t d ty s a sd ed cu =>
    (admin_create_election db t d ty s a sd ed cu).2
  | .createPosition t eid cu => (create_position db t eid cu).2
  | .updateElection eid t d ty s a sd ed cu =>
    (update_election db eid t d ty s a sd ed cu).2
  | .deleteElection eid cu => (delete_election db eid cu).2

/-- The vote-uniqueness invariant: no two rows of the votes table agree on
both user_id and election_id (the content of the storage-level
`UniqueConstraint('user_id', 'election_id')` on the Vote model). -/
def VoteUniq (votes : List VoteRec) : Prop :=
  votes.Pairwise (fun v w => ¬(v.user_id = w.user_id ∧ v.election_id = w.election_id))

instance (votes : List VoteRec) : Decidable (VoteUniq votes) := by
  unfold VoteUniq
  exact List.instDecidablePairwise votes

/-- Pairwise distinctness of a projected key (used for primary-key
uniqueness hypotheses on tables). -/
def IdUnique {α : Type} (f : α → Nat) (l : List α) : Prop :=
  l.Pairwise (fun a b => f a ≠ f b)

instance {α : Type} (f : α → Nat) (l : List α) : Decidable (IdUnique f l) := by
  unfold IdUnique
  exact List.instDecidablePairwise l

theorem eq_of_idUnique {α : Type} {f : α → Nat} {l : List α} (h : IdUnique f l)
    {a b : α} (ha : a ∈ l) (hb : b ∈ l) (hf : f a = f b) : a = b := by
  induction l with
  | nil => cases ha
  | cons x xs ih =>
    rcases List.pairwise_cons.mp h with ⟨hx, hxs⟩
    rcases List.mem_cons.mp ha with rfl | ha' <;>
      rcases List.mem_cons.mp hb with rfl | hb'
    · rfl
    · exact absurd hf (hx b hb')
    · exact absurd hf.symm (hx a ha')
    · exact ih hxs ha' hb'

/-- Appending a vote for a (user, election) pair that has no existing row
preserves the uniqueness invariant. -/
theorem voteUniq_append (votes : List VoteRec) (v : VoteRec)
    (h : VoteUniq votes)
    (hnone : votes.find?
      (fun w => w.user_id == v.user_id && w.election_id == v.election_id) = none) :
    VoteUniq (votes ++ [v]) := by
  unfold VoteUniq at h ⊢
  rw [List.pairwise_append]
  refine ⟨h, List.pairwise_singleton _ _, ?_⟩
  intro a ha b hb hab
  rcases List.mem_singleton.mp hb with rfl
  have := List.find?_eq_none.mp hnone a ha
  simp only [Bool.and_eq_true, beq_iff_eq] at this
  exact this ⟨hab.1, hab.2⟩

-- Per-endpoint facts about the votes table.

theorem create_user_votes (db : DB) (d : UserCreateData) (u : UserRec) (db' : DB)
    (h : create_user db d = .ok (u, db')) : db'.votes = db.votes := by
  unfold create_user at h
  repeat' split at h
  · exact absurd h (by simp)
  · exact absurd h (by simp)
  · cases h
    rfl

theorem register_user_votes (db : DB) (d : UserCreateData) :
    (register_user db d).2.votes = db.votes := by
  unfold register_user
  split
  · rfl
  · next u db' heq => exact create_user_votes db d u db' heq

theorem update_user_role_votes (db : DB) (uid : Nat) (r : UserRole) (cu : UserRec) :
    (update_user_role db uid r cu).2.votes = db.votes := by
  unfold update_user_role
  repeat' (first | rfl | split)

theorem update_user_status_votes (db : DB) (uid : Nat) (a : Bool) (cu : UserRec) :
    (update_user_status db uid a cu).2.votes = db.votes := by
  unfold update_user_status
  repeat' (first | rfl | split)

theorem delete_user_votes (db : DB) (uid : Nat) (cu : UserRec) :
    (delete_user db uid cu).2.votes = db.votes := by
  unfold delete_user
  repeat' (first | rfl | split)

theorem create_political_party_votes (db : DB) (n a : String)
    (d l : Option String) (cu : UserRec) :
    (create_political_party db n a d l cu).2.votes = db.votes := by
  unfold create_political_party
  repeat' (first | rfl | split)

theorem delete_political_party_votes (db : DB) (pid : Nat) (cu : UserRec) :
    (delete_political_party db pid cu).2.votes = db.votes := by
  unfold delete_political_party
  repeat' (first | rfl | split)

theorem create_candidate_votes (db : DB) (uid : Nat) (b : Option String)
    (pid : Option Nat) (pos : Nat) (m : Option String) (cu : UserRec) :
    (create_candidate db uid b pid pos m cu).2.votes = db.votes := by
  unfold create_candidate
  repeat' (first | rfl | split)

theorem delete_candidate_votes (db : DB) (cid : Nat) (cu : UserRec) :
    (delete_candidate db cid cu).2.votes = db.votes := by
  unfold delete_candidate
  repeat' (first | rfl | split)

theorem create_election_votes (db : DB) (t : String) (d : Option String)
    (ty : ElectionType) (s : Option State) (a : Bool) (sd ed : Option Int)
    (cu : UserRec) :
    (create_election db t d ty s a sd ed cu).2.votes = db.votes := by
  unfold create_election
  repeat' (first | rfl | split)

theorem admin_create_election_votes (db : DB) (t : String) (d : Option String)
    (ty : ElectionType) (s : Option State) (a : Bool) (sd ed : Option Int)
    (cu : UserRec) :
    (admin_create_election db t d ty s a sd ed cu).2.votes = db.votes := by
  unfold admin_create_election
  repeat' (first | rfl | split)

theorem create_position_votes (db : DB) (t : String) (eid : Nat) (cu : UserRec) :
    (create_position db t eid cu).2.votes = db.votes := by
  unfold create_position
  repeat' (first | rfl | split)

theorem update_election_votes (db : DB) (eid : Nat) (t d : Option String)
    (ty : Option ElectionType) (s : Option State) (a : Option Bool)
    (sd ed : Option Int) (cu : UserRec) :
    (update_election db eid t d ty s a sd ed cu).2.votes = db.votes := by
  unfold update_election
  repeat' (first | rfl | split)

theorem delete_election_votes (db : DB) (eid : Nat) (cu : UserRec) :
    (delete_election db eid cu).2.votes = db.votes := by
  unfold delete_election
  repeat' (first | rfl | split)

/-- cast_vote either leaves the database unchanged, or — having found no
existing vote for the caller in this election — appends exactly the one
new vote row. -/
theorem cast_vote_db_cases (db : DB) (eid cid : Nat) (u : UserRec) :
    (cast_vote db eid cid u).2 = db ∨
    (existingVoteLookup db u.id eid = none ∧
      (cast_vote db eid cid u).2 =
        { db with
            votes := db.votes ++ [mkVote db.nextVoteId u.id cid eid]
            nextVoteId := db.nextVoteId + 1 }) := by
  unfold cast_vote
  repeat' split
  · exact Or.inl rfl
  · exact Or.inl rfl
  · exact Or.inl rfl
  · exact Or.inl rfl
  · exact Or.inl rfl
  all_goals exact Or.inr ⟨by assumption, rfl⟩

-- Concrete sample data for witness theorems.

/-- A sample ordinary voter residing in Lagos. -/
def sampleUser : UserRec :=
  { id := 1, nin := "12345678901", email := "voter@example.com"
    full_name := "Voter One", state_of_residence := State.lagos
    hashed_password := "h1", role := UserRole.user }

/-- A sample admin user. -/
def sampleAdmin : UserRec :=
  { id := 2, nin := "12345678902", email := "admin@example.com"
    full_name := "Admin Two", state_of_residence := State.abia
    hashed_password := "h2", role := UserRole.admin }

/-- A sample super_admin user. -/
def sampleSuperAdmin : UserRec :=
  { id := 3, nin := "12345678903", email := "root@example.com"
    full_name := "Root Three", state_of_residence := State.kano
    hashed_password := "h3", role := UserRole.super_admin }

/-- A sample active federal election. -/
def sampleElection : ElectionRec :=
  { id := 1, title := "Presidential Election"
    election_type := ElectionType.federal, is_active := true }

/-- A sample position of the sample election. -/
def samplePosition : PositionRec :=
  { id := 1, title := "President", election_id := 1 }

/-- A sample party. -/
def sampleParty : PoliticalPartyRec :=
  { id := 1, name := "Progress Party", acronym := "PP" }

/-- A sample candidate of the sample party. -/
def sampleCandidate : CandidateRec :=
  { id := 1, name := "Candidate A", party_id := some 1, position_id := 1 }

/-- A sample candidate without a party. -/
def sampleCandidate2 : CandidateRec :=
  { id := 2, name := "Candidate B", party_id := none, position_id := 1 }

/-- A sample database holding the rows above and no votes yet. -/
def sampleDB : DB :=
  { users := [sampleUser, sampleAdmin, sampleSuperAdmin]
    elections := [sampleElection]
    positions := [samplePosition]
    candidates := [sampleCandidate, sampleCandidate2]
    votes := []
    parties := [sampleParty]
    nextUserId := 4, nextElectionId := 2, nextPositionId := 2
    nextVoteId := 1, nextPartyId := 2 }

-- CLAIM THEOREMS

/-- C1: for every database state satisfying the one-vote-per-(user,
election) invariant, every embedded API operation (in particular
cast_vote, the only operation that writes to the votes table, thanks to
its existence check before insertion — the application-level half of the
storage uniqueness constraint on (user_id, election_id)) preserves the
invariant: afterwards at most one Vote row exists for each user/election
pair. -/
theorem claim_C1_vote_uniqueness_preserved (op : ApiOp) (db : DB)
    (h : VoteUniq db.votes) : VoteUniq (applyOp op db).votes := by
  cases op with
  | castVote eid cid u =>
    rcases cast_vote_db_cases db eid cid u with hdb | ⟨hnone, hdb⟩
    · simp only [applyOp, hdb]
      exact h
    · simp only [applyOp, hdb]
      exact voteUniq_append db.votes _ h hnone
  | register d =>
    simp only [applyOp]
    rw [register_user_votes]
    exact h
  | updateUserRole uid r cu =>
    simp only [applyOp]
    rw [update_user_role_votes]
    exact h
  | updateUserStatus uid a cu =>
    simp only [applyOp]
    rw [update_user_status_votes]
    exact h
  | deleteUser uid cu =>
    simp only [applyOp]
    rw [delete_user_votes]
    exact h
  | createParty n a dsc l cu =>
    simp only [applyOp]
    rw [create_political_party_votes]
    exact h
  | deleteParty pid cu =>
    simp only [applyOp]
    rw [delete_political_party_votes]
    exact h
  | createCandidate uid b pid pos m cu =>
    simp only [applyOp]
    rw [create_candidate_votes]
    exact h
  | deleteCandidate cid cu =>
    simp only [applyOp]
    rw [delete_candidate_votes]
    exact h
  | createElection t dsc ty s a sd ed cu =>
    simp only [applyOp]
    rw [create_election_votes]
    exact h
  | adminCreateElection t dsc ty s a sd ed cu =>
    simp only [applyOp]
    rw [admin_create_election_votes]
    exact h
  | createPosition t eid cu =>
    simp only [applyOp]
    rw [create_position_votes]
    exact h
  | updateElection eid t dsc ty s a sd ed cu =>
    simp only [applyOp]
    rw [update_election_votes]
    exact h
  | deleteElection eid cu =>
    simp only [applyOp]
    rw [delete_election_votes]
    exact h

/-- Witness for C1: the sample database satisfies the invariant, and a
concrete cast_vote operation preserves it. -/
theorem claim_C1_vote_uniqueness_preserved_witness :
    VoteUniq (applyOp (ApiOp.castVote 1 1 sampleUser) sampleDB).votes :=
  claim_C1_vote_uniqueness_preserved (ApiOp.castVote 1 1 sampleUser) sampleDB
    (by decide)

/-- The admin gate hands back exactly the caller it was given. -/
theorem get_current_admin_ok {u v : UserRec} (h : get_current_admin u = .ok v) :
    v = u := by
  unfold get_current_admin at h
  split at h
  · cases h
  · cases h
    rfl

/-- The super_admin gate hands back exactly the caller it was given. -/
theorem get_current_super_admin_ok {u v : UserRec}
    (h : get_current_super_admin u = .ok v) : v = u := by
  unfold get_current_super_admin at h
  split at h
  · cases h
  · cases h
    rfl

/-- C6: the admin gate rejects every caller whose role is neither admin
nor super_admin with HTTP 403 and passes callers holding either role; the
super_admin gate rejects every caller whose role is not super_admin with
HTTP 403 and passes super_admins. -/
theorem claim_C6_role_gates (u : UserRec) :
    (u.role ≠ UserRole.admin ∧ u.role ≠ UserRole.super_admin →
      get_current_admin u =
        .error (403, "Insufficient permissions. Admin access required.")) ∧
    (u.role = UserRole.admin ∨ u.role = UserRole.super_admin →
      get_current_admin u = .ok u) ∧
    (u.role ≠ UserRole.super_admin →
      get_current_super_admin u =
        .error (403, "Insufficient permissions. Super Admin access required.")) ∧
    (u.role = UserRole.super_admin → get_current_super_admin u = .ok u) := by
  cases hu : u.role <;>
    simp [get_current_admin, get_current_super_admin, hu]

/-- Witness for C6 at concrete users of each role. -/
theorem claim_C6_role_gates_witness :
    get_current_admin sampleUser =
      .error (403, "Insufficient permissions. Admin access required.") ∧
    get_current_admin sampleAdmin = .ok sampleAdmin ∧
    get_current_super_admin sampleAdmin =
      .error (403, "Insufficient permissions. Super Admin access required.") ∧
    get_current_super_admin sampleSuperAdmin = .ok sampleSuperAdmin :=
  ⟨(claim_C6_role_gates sampleUser).1 (by decide),
   (claim_C6_role_gates sampleAdmin).2.1 (Or.inl (by decide)),
   (claim_C6_role_gates sampleAdmin).2.2.1 (by decide),
   (claim_C6_role_gates sampleSuperAdmin).2.2.2 (by decide)⟩

/-- C7: a caller can never mutate their own role, deactivate their own
account, or delete their own account through the guarded admin endpoints:
each such request yields a non-success response and leaves the database
(in particular the caller's user record) unchanged. -/
theorem claim_C7_no_self_mutation (db : DB) (cu : UserRec) (r : UserRole) :
    ((update_user_role db cu.id r cu).1.isSuccess = false ∧
      (update_user_role db cu.id r cu).2 = db) ∧
    ((update_user_status db cu.id false cu).1.isSuccess = false ∧
      (update_user_status db cu.id false cu).2 = db) ∧
    ((delete_user db cu.id cu).1.isSuccess = false ∧
      (delete_user db cu.id cu).2 = db) := by
  refine ⟨?_, ?_, ?_⟩
  · unfold update_user_role
    cases hgate : get_current_super_admin cu with
    | error e =>
      cases e
      simp [hgate, ApiResult.isSuccess]
    | ok v =>
      have hv := get_current_super_admin_ok hgate
      subst hv
      simp [hgate, ApiResult.isSuccess]
  · unfold update_user_status
    cases hgate : get_current_admin cu with
    | error e =>
      cases e
      simp [hgate, ApiResult.isSuccess]
    | ok v =>
      have hv := get_current_admin_ok hgate
      subst hv
      simp [hgate, ApiResult.isSuccess]
  · unfold delete_user
    cases hgate : get_current_super_admin cu with
    | error e =>
      cases e
      simp [hgate, ApiResult.isSuccess]
    | ok v =>
      have hv := get_current_super_admin_ok hgate
      subst hv
      simp [hgate, ApiResult.isSuccess]

/-- C10: every request to the admin create-candidate endpoint returns a
non-success response and never creates a Candidate row (the Candidate
model has no user_id attribute, so past the user-existence check the
handler always lands in the exception branch; no path reaches an
insert). -/
theorem claim_C10_create_candidate_never_succeeds (db : DB) (uid : Nat)
    (b : Option String) (pid : Option Nat) (pos : Nat) (m : Option String)
    (cu : UserRec) :
    (create_candidate db uid b pid pos m cu).1.isSuccess = false ∧
    (create_candidate db uid b pid pos m cu).2 = db := by
  unfold create_candidate
  repeat' (first | exact ⟨rfl, rfl⟩ | split)

/-- The vote cast by the sample voter for candidate 1 in election 1. -/
def sampleVote : VoteRec := mkVote 1 1 1 1

/-- The sample database after the sample voter has voted. -/
def sampleDBv : DB := { sampleDB with votes := [sampleVote], nextVoteId := 2 }

/-- A membership fact yields a positive filter length. -/
theorem filter_length_pos {α : Type} {p : α → Bool} {l : List α} {a : α}
    (h : a ∈ l) (hp : p a = true) : 0 < (l.filter p).length :=
  List.length_pos_of_mem (List.mem_filter.mpr ⟨h, hp⟩)

/-- C5: deleting a Candidate that has received a vote, an Election that
has received a vote, or a PoliticalParty one of whose candidates has
received a vote, is rejected: the delete endpoint returns a non-success
response and the database is unchanged. -/
theorem claim_C5_deletes_with_votes_rejected (db : DB) (cu : UserRec) :
    (∀ cid, (∃ v ∈ db.votes, v.candidate_id = cid) →
      (delete_candidate db cid cu).1.isSuccess = false ∧
      (delete_candidate db cid cu).2 = db) ∧
    (∀ eid, (∃ v ∈ db.votes, v.election_id = eid) →
      (delete_election db eid cu).1.isSuccess = false ∧
      (delete_election db eid cu).2 = db) ∧
    (∀ pid, (∃ c ∈ db.candidates, c.party_id = some pid ∧
        ∃ v ∈ db.votes, v.candidate_id = c.id) →
      (delete_political_party db pid cu).1.isSuccess = false ∧
      (delete_political_party db pid cu).2 = db) := by
  refine ⟨?_, ?_, ?_⟩
  · rintro cid ⟨v, hv, hvc⟩
    have hpos : 0 < (db.votes.filter (fun w => w.candidate_id == cid)).length :=
      filter_length_pos hv (by simp [hvc])
    unfold delete_candidate
    repeat' (first | exact ⟨rfl, rfl⟩ | exact absurd hpos (by assumption) | split)
  · rintro eid ⟨v, hv, hve⟩
    have hpos : 0 < (db.votes.filter (fun w => w.election_id == eid)).length :=
      filter_length_pos hv (by simp [hve])
    unfold delete_election
    repeat' (first | exact ⟨rfl, rfl⟩ | exact absurd hpos (by assumption) | split)
  · rintro pid ⟨c, hc, hcp, -⟩
    have hpos : 0 < (db.candidates.filter (fun d => d.party_id == some pid)).length :=
      filter_length_pos hc (by simp [hcp])
    unfold delete_political_party
    repeat' (first | exact ⟨rfl, rfl⟩ | exact absurd hpos (by assumption) | split)

/-- Witness for C5: in the sample database with one vote for candidate 1
in election 1 of party 1, all three deletes are rejected and change
nothing. -/
theorem claim_C5_deletes_with_votes_rejected_witness :
    ((delete_candidate sampleDBv 1 sampleAdmin).1.isSuccess = false ∧
      (delete_candidate sampleDBv 1 sampleAdmin).2 = sampleDBv) ∧
    ((delete_election sampleDBv 1 sampleAdmin).1.isSuccess = false ∧
      (delete_election sampleDBv 1 sampleAdmin).2 = sampleDBv) ∧
    ((delete_political_party sampleDBv 1 sampleAdmin).1.isSuccess = false ∧
      (delete_political_party sampleDBv 1 sampleAdmin).2 = sampleDBv) :=
  ⟨(claim_C5_deletes_with_votes_rejected sampleDBv sampleAdmin).1 1
      ⟨sampleVote, by decide, by decide⟩,
   (claim_C5_deletes_with_votes_rejected sampleDBv sampleAdmin).2.1 1
      ⟨sampleVote, by decide, by decide⟩,
   (claim_C5_deletes_with_votes_rejected sampleDBv sampleAdmin).2.2 1
      ⟨sampleCandidate, by decide, by decide, sampleVote, by decide, by decide⟩⟩

/-- C2: the cast_vote contract.  For an authenticated active user: when
the election lookup (exists and active) succeeds, the user has no
existing vote in the election, the candidate lookup (candidate belongs to
a position of the election) succeeds, and the state-eligibility condition
holds (federal election, or no election state, or matching residence
state), exactly one Vote row linking user, candidate and election is
appended and a success envelope is returned.  The preconditions are
checked in the order election / already-voted / candidate / state:
violating one of them (with the earlier ones passing) yields exactly that
check's failure envelope, with the database unchanged. -/
theorem claim_C2_cast_vote_contract (db : DB) (eid cid : Nat) (u : UserRec)
    (hactive : u.is_active = true) :
    (∀ e, electionLookup db eid = some e →
      existingVoteLookup db u.id eid = none →
      (candidateInElectionLookup db cid eid).isSome = true →
      (e.election_type = ElectionType.federal ∨ e.state = none ∨
        e.state = some u.state_of_residence) →
      cast_vote db eid cid u =
        (.success db.nextVoteId "Vote cast successfully",
         { db with votes := db.votes ++ [mkVote db.nextVoteId u.id cid eid]
                   nextVoteId := db.nextVoteId + 1 })) ∧
    (electionLookup db eid = none →
      cast_vote db eid cid u =
        (.failure "Election not found or not active" "Vote failed", db)) ∧
    (∀ e, electionLookup db eid = some e →
      (existingVoteLookup db u.id eid).isSome = true →
      cast_vote db eid cid u =
        (.failure "You have already voted in this election" "Vote failed", db)) ∧
    (∀ e, electionLookup db eid = some e →
      existingVoteLookup db u.id eid = none →
      candidateInElectionLookup db cid eid = none →
      cast_vote db eid cid u =
        (.failure "Candidate not found in this election" "Vote failed", db)) ∧
    (∀ e s, electionLookup db eid = some e →
      existingVoteLookup db u.id eid = none →
      (candidateInElectionLookup db cid eid).isSome = true →
      e.election_type ≠ ElectionType.federal → e.state = some s →
      u.state_of_residence ≠ s →
      cast_vote db eid cid u =
        (.failure ("Only residents of " ++ stateValue s ++ " can vote in this election")
          "Vote failed", db)) := by
  refine ⟨?_, ?_, ?_, ?_, ?_⟩
  · intro e he hv hc helig
    obtain ⟨c, hc'⟩ := Option.isSome_iff_exists.mp hc
    rcases helig with hf | hn | hs
    · cases hstate : e.state with
      | none => simp [cast_vote, hactive, he, hv, hc', hstate]
      | some s => simp [cast_vote, hactive, he, hv, hc', hstate, hf]
    · simp [cast_vote, hactive, he, hv, hc', hn]
    · simp [cast_vote, hactive, he, hv, hc', hs]
  · intro he
    simp [cast_vote, hactive, he]
  · intro e he hv
    obtain ⟨v, hv'⟩ := Option.isSome_iff_exists.mp hv
    simp [cast_vote, hactive, he, hv']
  · intro e he hv hc
    simp [cast_vote, hactive, he, hv, hc]
  · intro e s he hv hc hfed hstate hdiff
    obtain ⟨c, hc'⟩ := Option.isSome_iff_exists.mp hc
    simp [cast_vote, hactive, he, hv, hc', hstate, hfed, hdiff]

/-- Witness for C2: in the sample database the sample voter successfully
casts the one vote for candidate 1 in election 1. -/
theorem claim_C2_cast_vote_contract_witness :
    cast_vote sampleDB 1 1 sampleUser =
      (.success 1 "Vote cast successfully",
       { sampleDB with votes := [mkVote 1 1 1 1], nextVoteId := 2 }) :=
  (claim_C2_cast_vote_contract sampleDB 1 1 sampleUser rfl).1 sampleElection
    (by decide) (by decide) (by decide) (Or.inl (by decide))

/-- The sample election after an admin deactivated it. -/
def inactiveElection : ElectionRec := { sampleElection with is_active := false }

/-- The sample database holding the sample vote but whose election has
been deactivated (reachable via admin update_election with
is_active=False after the vote was cast). -/
def sampleDBvInactive : DB := { sampleDBv with elections := [inactiveElection] }

/-- Counterexample for C4: the sample voter already has a Vote row in
election 1, yet — the election having been deactivated — a second
cast-vote request fails with the election error, not with an
already-voted error: the election-active check runs before the
already-voted check. -/
theorem claim_C4_counterexample :
    (∃ v ∈ sampleDBvInactive.votes,
      v.user_id = sampleUser.id ∧ v.election_id = 1) ∧
    cast_vote sampleDBvInactive 1 1 sampleUser =
      (.failure "Election not found or not active" "Vote failed",
        sampleDBvInactive) := by
  constructor
  · exact ⟨sampleVote, by decide, by decide, by decide⟩
  · decide

/-- C4 (amended): for an active user who already has a Vote row in
election E, a second cast-vote request in E — provided the election still
exists and is active, so that the earlier election check passes — fails
with the already-voted error, and the database (hence the Vote table) is
unchanged. -/
theorem claim_C4_already_voted (db : DB) (eid cid : Nat) (u : UserRec)
    (hactive : u.is_active = true)
    (he : (electionLookup db eid).isSome = true)
    (hv : ∃ v ∈ db.votes, v.user_id = u.id ∧ v.election_id = eid) :
    cast_vote db eid cid u =
      (.failure "You have already voted in this election" "Vote failed", db) := by
  obtain ⟨e, he'⟩ := Option.isSome_iff_exists.mp he
  obtain ⟨v, hvmem, hvu, hve⟩ := hv
  have hsome : (existingVoteLookup db u.id eid).isSome = true := by
    unfold existingVoteLookup
    rw [List.find?_isSome]
    exact ⟨v, hvmem, by simp [hvu, hve]⟩
  obtain ⟨w, hw⟩ := Option.isSome_iff_exists.mp hsome
  simp [cast_vote, hactive, he', hw]

/-- Witness for C4 (amended): the sample voter's second vote in the still
active election 1 fails with the already-voted error. -/
theorem claim_C4_already_voted_witness :
    cast_vote sampleDBv 1 2 sampleUser =
      (.failure "You have already voted in this election" "Vote failed",
        sampleDBv) :=
  claim_C4_already_voted sampleDBv 1 2 sampleUser rfl (by decide)
    ⟨sampleVote, by decide, by decide, by decide⟩

/-- An active election of type state whose state column is NULL — exactly
what POST /admin/elections permits, since (unlike elections.py
create_election) it never checks that a state/local election carries a
state. -/
def statelessStateElection : ElectionRec :=
  { id := 2, title := "Gubernatorial Election"
    election_type := ElectionType.state, state := none, is_active := true }

/-- A position belonging to the stateless state election. -/
def positionE2 : PositionRec := { id := 2, title := "Governor", election_id := 2 }

/-- A candidate standing for the position of the stateless state
election. -/
def candidateE2 : CandidateRec :=
  { id := 3, name := "Candidate C", party_id := none, position_id := 2 }

/-- The sample database extended with the stateless state election, its
position and its candidate. -/
def sampleDB3 : DB :=
  { sampleDB with
      elections := [sampleElection, statelessStateElection]
      positions := [samplePosition, positionE2]
      candidates := [sampleCandidate, sampleCandidate2, candidateE2]
      nextElectionId := 3, nextPositionId := 3 }

/-- Counterexample for C3: election 2 is a state (non-federal) election
and the sample voter's residence state (Lagos) differs from the
election's state (NULL), yet the voter's cast-vote request for a
candidate of that election succeeds and inserts a Vote row: when a
state/local election has no state value the eligibility check is skipped
entirely. -/
theorem claim_C3_counterexample :
    statelessStateElection ∈ sampleDB3.elections ∧
    statelessStateElection.election_type = ElectionType.state ∧
    statelessStateElection.state = none ∧
    statelessStateElection.state ≠ some sampleUser.state_of_residence ∧
    candidateE2.position_id = positionE2.id ∧
    positionE2.election_id = statelessStateElection.id ∧
    (cast_vote sampleDB3 2 3 sampleUser).1.isSuccess = true ∧
    (cast_vote sampleDB3 2 3 sampleUser).2.votes =
      sampleDB3.votes ++ [mkVote 1 1 3 2] := by
  decide

/-- The fields guaranteed by a successful election lookup. -/
theorem electionLookup_eq {db : DB} {eid : Nat} {e : ElectionRec}
    (h : electionLookup db eid = some e) :
    e ∈ db.elections ∧ e.id = eid ∧ e.is_active = true := by
  unfold electionLookup at h
  have hmem := List.mem_of_find?_eq_some h
  have hp := List.find?_some h
  simp only [Bool.and_eq_true, beq_iff_eq] at hp
  exact ⟨hmem, hp.1, hp.2⟩

/-- C3 (amended): for a non-federal election whose state column is set to
some state `s` (election ids being unique), a cast-vote request by a user
whose residence state differs from `s` never succeeds and leaves the
database unchanged — whichever precondition check it dies on. -/
theorem claim_C3_state_eligibility (db : DB) (eid cid : Nat) (u : UserRec)
    (e : ElectionRec) (s : State)
    (huniq : IdUnique (fun x => x.id) db.elections)
    (hmem : e ∈ db.elections) (hid : e.id = eid)
    (htype : e.election_type ≠ ElectionType.federal)
    (hstate : e.state = some s)
    (hdiff : u.state_of_residence ≠ s) :
    (cast_vote db eid cid u).1.isSuccess = false ∧
    (cast_vote db eid cid u).2 = db := by
  cases hact : u.is_active with
  | false => simp [cast_vote, hact, ApiResult.isSuccess]
  | true =>
    cases hel : electionLookup db eid with
    | none => simp [cast_vote, hact, hel, ApiResult.isSuccess]
    | some efound =>
      obtain ⟨hfmem, hfid, -⟩ := electionLookup_eq hel
      have hef : efound = e := eq_of_idUnique huniq hfmem hmem (by rw [hfid, hid])
      subst hef
      cases hev : existingVoteLookup db u.id eid with
      | some w => simp [cast_vote, hact, hel, hev, ApiResult.isSuccess]
      | none =>
        cases hcand : candidateInElectionLookup db cid eid with
        | none => simp [cast_vote, hact, hel, hev, hcand, ApiResult.isSuccess]
        | some c =>
          simp [cast_vote, hact, hel, hev, hcand, hstate, htype, hdiff,
            ApiResult.isSuccess]

/-- Witness for C3 (amended): a Lagos resident cannot vote in an Abia
state election. -/
theorem claim_C3_state_eligibility_witness :
    (cast_vote
      { sampleDB with elections := [{ sampleElection with
          election_type := ElectionType.state, state := some State.abia }] }
      1 1 sampleUser).1.isSuccess = false ∧
    (cast_vote
      { sampleDB with elections := [{ sampleElection with
          election_type := ElectionType.state, state := some State.abia }] }
      1 1 sampleUser).2 =
      { sampleDB with elections := [{ sampleElection with
          election_type := ElectionType.state, state := some State.abia }] } :=
  claim_C3_state_eligibility _ 1 1 sampleUser
    { sampleElection with election_type := ElectionType.state, state := some State.abia }
    State.abia (by decide) (by decide) (by decide) (by decide) (by decide)
    (by decide)

/-- An unauthenticated register request claiming the admin role with a
fresh email and NIN (the UserCreate validators accept the role string
"admin", an 11-digit NIN and a password of at least 8 characters). -/
def adminRegistration : UserCreateData :=
  { nin := "99999999999", email := "mallory@example.com"
    full_name := "Mallory Admin", state_of_residence := State.lagos
    password := "longenough", role := UserRole.admin }

/-- C9: the public registration operation creates the new user with
exactly the role supplied in the request body (the schema default being
"user" when the field is omitted); hence a register request carrying role
admin or super_admin with a fresh email and NIN yields an account holding
that privileged role, and that account passes the corresponding role
gate. -/
theorem claim_C9_register_role (db : DB) (d : UserCreateData)
    (hfresh : db.users.find?
      (fun u => u.email == d.email || u.nin == d.nin) = none) :
    ∃ u db',
      register_user db d = (.success u "User created successfully", db') ∧
      u.role = d.role ∧
      db'.users = db.users ++ [u] ∧
      (d.role = UserRole.admin ∨ d.role = UserRole.super_admin →
        get_current_admin u = .ok u) ∧
      (d.role = UserRole.super_admin → get_current_super_admin u = .ok u) ∧
      UserBase.role_default = UserRole.user := by
  refine
    ⟨{ id := db.nextUserId, nin := d.nin, email := d.email
       full_name := d.full_name, state_of_residence := d.state_of_residence
       hashed_password := get_password_hash d.password, role := d.role
       is_active := true, is_verified := false },
     { db with
        users := db.users ++
          [{ id := db.nextUserId, nin := d.nin, email := d.email
             full_name := d.full_name, state_of_residence := d.state_of_residence
             hashed_password := get_password_hash d.password, role := d.role
             is_active := true, is_verified := false }]
        nextUserId := db.nextUserId + 1 },
     ?_, rfl, rfl, ?_, ?_, rfl⟩
  · simp [register_user, create_user, hfresh]
  · intro hrole
    rcases hrole with h | h <;> simp [get_current_admin, h]
  · intro hrole
    simp [get_current_super_admin, hrole]

/-- Witness for C9: registering on the sample database with the admin
registration payload creates an account whose role is admin. -/
theorem claim_C9_register_role_witness :
    ∃ u db',
      register_user sampleDB adminRegistration =
        (.success u "User created successfully", db') ∧
      u.role = adminRegistration.role ∧
      db'.users = sampleDB.users ++ [u] ∧
      (adminRegistration.role = UserRole.admin ∨
          adminRegistration.role = UserRole.super_admin →
        get_current_admin u = .ok u) ∧
      (adminRegistration.role = UserRole.super_admin →
        get_current_super_admin u = .ok u) ∧
      UserBase.role_default = UserRole.user :=
  claim_C9_register_role sampleDB adminRegistration (by decide)

-- Invariants of the party_results aggregation.

/-- The dict key used by get_election_results for a candidate:
`candidate.party.id if candidate.party else 0`. -/
def bucketKey (db : DB) (c : CandidateRec) : Nat :=
  match partyOf db c with
  | some p => p.id
  | none => 0

/-- A bucket's running total always equals the sum of its candidates'
vote counts. -/
def SumOK (buckets : List PartyBucket) : Prop :=
  ∀ b ∈ buckets, b.total_votes = (b.candidates.map (fun q => q.2)).sum

/-- Every bucket keyed 0 carries the Independent name and acronym. -/
def IndepOK (buckets : List PartyBucket) : Prop :=
  ∀ b ∈ buckets, b.party_id = 0 →
    b.party_name = "Independent" ∧ b.party_acronym = "IND"

/-- The candidate appears, with its own vote count, in the bucket keyed
by its party. -/
def ReportedOK (db : DB) (buckets : List PartyBucket) (c : CandidateRec) : Prop :=
  ∃ b ∈ buckets, b.party_id = bucketKey db c ∧
    (c, countVotesFor db c.id) ∈ b.candidates

/-- A party resolved through the candidate relationship is a row of the
parties table. -/
theorem partyOf_mem {db : DB} {c : CandidateRec} {p : PoliticalPartyRec}
    (h : partyOf db c = some p) : p ∈ db.parties := by
  unfold partyOf at h
  cases hc : c.party_id with
  | none => rw [hc] at h; cases h
  | some pid =>
    rw [hc] at h
    exact List.mem_of_find?_eq_some h

theorem addToBucket_sum {buckets : List PartyBucket} {pid : Nat}
    {pn pa : String} {c : CandidateRec} {v : Nat} (h : SumOK buckets) :
    SumOK (addToBucket buckets pid pn pa c v) := by
  induction buckets with
  | nil =>
    intro b hb
    simp only [addToBucket, List.mem_singleton] at hb
    subst hb
    simp
  | cons b0 rest ih =>
    intro b hb
    unfold addToBucket at hb
    split at hb
    · rcases List.mem_cons.mp hb with rfl | hb'
      · simp [h b0 (List.mem_cons_self _ _)]
      · exact h b (List.mem_cons_of_mem _ hb')
    · rcases List.mem_cons.mp hb with rfl | hb'
      · exact h b (List.mem_cons_self _ _)
      · exact ih (fun x hx => h x (List.mem_cons_of_mem _ hx)) b hb'

theorem addToBucket_indep {buckets : List PartyBucket} {pid : Nat}
    {pn pa : String} {c : CandidateRec} {v : Nat} (h : IndepOK buckets)
    (hnew : pid = 0 → pn = "Independent" ∧ pa = "IND") :
    IndepOK (addToBucket buckets pid pn pa c v) := by
  induction buckets with
  | nil =>
    intro b hb h0
    simp only [addToBucket, List.mem_singleton] at hb
    subst hb
    exact hnew h0
  | cons b0 rest ih =>
    intro b hb h0
    unfold addToBucket at hb
    split at hb
    · rcases List.mem_cons.mp hb with rfl | hb'
      · exact h b0 (List.mem_cons_self _ _) h0
      · exact h b (List.mem_cons_of_mem _ hb') h0
    · rcases List.mem_cons.mp hb with rfl | hb'
      · exact h b (List.mem_cons_self _ _) h0
      · exact ih (fun x hx hx0 => h x (List.mem_cons_of_mem _ hx) hx0) b hb' h0

theorem addToBucket_mem_new (buckets : List PartyBucket) (pid : Nat)
    (pn pa : String) (c : CandidateRec) (v : Nat) :
    ∃ b ∈ addToBucket buckets pid pn pa c v,
      b.party_id = pid ∧ (c, v) ∈ b.candidates := by
  induction buckets with
  | nil =>
    refine ⟨_, List.mem_singleton_self _, rfl, ?_⟩
    simp
  | cons b0 rest ih =>
    unfold addToBucket
    split
    · next hpid =>
      refine ⟨_, List.mem_cons_self _ _, beq_iff_eq.mp hpid, ?_⟩
      simp
    · obtain ⟨b, hb, h1, h2⟩ := ih
      exact ⟨b, List.mem_cons_of_mem _ hb, h1, h2⟩

theorem addToBucket_mem_mono {buckets : List PartyBucket} {b : PartyBucket}
    (hb : b ∈ buckets) (pid : Nat) (pn pa : String) (c : CandidateRec)
    (v : Nat) :
    ∃ b' ∈ addToBucket buckets pid pn pa c v,
      b'.party_id = b.party_id ∧ ∀ x ∈ b.candidates, x ∈ b'.candidates := by
  induction buckets with
  | nil => cases hb
  | cons b0 rest ih =>
    unfold addToBucket
    rcases List.mem_cons.mp hb with rfl | hb'
    · split
      · refine ⟨_, List.mem_cons_self _ _, rfl, ?_⟩
        intro x hx
        simp [hx]
      · exact ⟨b, List.mem_cons_self _ _, rfl, fun x hx => hx⟩
    · split
      · exact ⟨b, List.mem_cons_of_mem _ hb', rfl, fun x hx => hx⟩
      · obtain ⟨b', hb'', h1, h2⟩ := ih hb'
        exact ⟨b', List.mem_cons_of_mem _ hb'', h1, h2⟩

theorem addCandidate_sum {db : DB} {buckets : List PartyBucket}
    (h : SumOK buckets) (c : CandidateRec) :
    SumOK (addCandidateToResults db buckets c) := by
  unfold addCandidateToResults
  cases partyOf db c <;> exact addToBucket_sum h

theorem addCandidate_indep {db : DB} {buckets : List PartyBucket}
    (hparties : ∀ p ∈ db.parties, p.id ≠ 0) (h : IndepOK buckets)
    (c : CandidateRec) : IndepOK (addCandidateToResults db buckets c) := by
  unfold addCandidateToResults
  cases hp : partyOf db c with
  | none => exact addToBucket_indep h (fun _ => ⟨rfl, rfl⟩)
  | some p =>
    exact addToBucket_indep h
      (fun h0 => absurd h0 (hparties p (partyOf_mem hp)))

theorem addCandidate_reported_new (db : DB) (buckets : List PartyBucket)
    (c : CandidateRec) : ReportedOK db (addCandidateToResults db buckets c) c := by
  unfold ReportedOK addCandidateToResults bucketKey
  cases hp : partyOf db c with
  | none => exact addToBucket_mem_new buckets 0 "Independent" "IND" c _
  | some p => exact addToBucket_mem_new buckets p.id p.name p.acronym c _

theorem addCandidate_reported_mono {db : DB} {buckets : List PartyBucket}
    {c0 : CandidateRec} (h : ReportedOK db buckets c0) (c : CandidateRec) :
    ReportedOK db (addCandidateToResults db buckets c) c0 := by
  obtain ⟨b, hb, hkey, hmem⟩ := h
  unfold addCandidateToResults
  cases partyOf db c with
  | none =>
    obtain ⟨b', hb', h1, h2⟩ := addToBucket_mem_mono hb _ _ _ _ _
    exact ⟨b', hb', h1.trans hkey, h2 _ hmem⟩
  | some p =>
    obtain ⟨b', hb', h1, h2⟩ := addToBucket_mem_mono hb _ _ _ _ _
    exact ⟨b', hb', h1.trans hkey, h2 _ hmem⟩

theorem foldl_results_sum (db : DB) (cs : List CandidateRec) :
    ∀ acc, SumOK acc → SumOK (cs.foldl (addCandidateToResults db) acc) := by
  induction cs with
  | nil => intro acc h; simpa using h
  | cons c cs ih =>
    intro acc h
    simp only [List.foldl_cons]
    exact ih _ (addCandidate_sum h c)

theorem foldl_results_indep (db : DB)
    (hparties : ∀ p ∈ db.parties, p.id ≠ 0) (cs : List CandidateRec) :
    ∀ acc, IndepOK acc → IndepOK (cs.foldl (addCandidateToResults db) acc) := by
  induction cs with
  | nil => intro acc h; simpa using h
  | cons c cs ih =>
    intro acc h
    simp only [List.foldl_cons]
    exact ih _ (addCandidate_indep hparties h c)

theorem foldl_results_reported (db : DB) (cs : List CandidateRec) :
    ∀ acc c, (c ∈ cs ∨ ReportedOK db acc c) →
      ReportedOK db (cs.foldl (addCandidateToResults db) acc) c := by
  induction cs with
  | nil =>
    intro acc c hc
    rcases hc with h | h
    · cases h
    · simpa using h
  | cons c' cs ih =>
    intro acc c hc
    simp only [List.foldl_cons]
    rcases hc with h | h
    · rcases List.mem_cons.mp h with rfl | h'
      · exact ih _ c (Or.inr (addCandidate_reported_new db acc c))
      · exact ih _ c (Or.inl h')
    · exact ih _ c (Or.inr (addCandidate_reported_mono h c'))

/-- C8: for every existing election (party primary keys being nonzero,
as autoincrement keys are), the results endpoint succeeds and reports:
the election's total vote count; per bucket, a total equal to the sum of
its candidates' vote counts and a percentage equal to total_votes /
election total * 100 (0 when the election has no votes); each candidate
of the election with its own vote count in some bucket; and every
candidate without a party in a bucket named "Independent" with acronym
"IND". -/
theorem claim_C8_election_results (db : DB) (eid : Nat) (e : ElectionRec)
    (hfind : db.elections.find? (fun x => x.id == eid) = some e)
    (hparties : ∀ p ∈ db.parties, p.id ≠ 0) :
    ∃ data,
      get_election_results db eid =
        .success data "Election results retrieved successfully" ∧
      data.total_votes =
        (db.votes.filter (fun v => v.election_id == eid)).length ∧
      (∀ r ∈ data.party_results,
        r.total_votes = (r.candidates.map (fun q => q.2)).sum) ∧
      (∀ r ∈ data.party_results,
        r.percentage =
          if data.total_votes > 0 then
            (r.total_votes : ℚ) / (data.total_votes : ℚ) * 100
          else 0) ∧
      (∀ c ∈ electionCandidates db eid,
        ∃ r ∈ data.party_results, (c, countVotesFor db c.id) ∈ r.candidates) ∧
      (∀ c ∈ electionCandidates db eid, c.party_id = none →
        ∃ r ∈ data.party_results, (c, countVotesFor db c.id) ∈ r.candidates ∧
          r.party_name = "Independent" ∧ r.party_acronym = "IND") := by
  unfold get_election_results
  rw [hfind]
  refine ⟨_, rfl, rfl, ?_, ?_, ?_, ?_⟩
  · intro r hr
    obtain ⟨b, hb, rfl⟩ := List.mem_map.mp hr
    exact foldl_results_sum db (electionCandidates db eid) [] (by simp [SumOK]) b hb
  · intro r hr
    obtain ⟨b, hb, rfl⟩ := List.mem_map.mp hr
    rfl
  · intro c hc
    obtain ⟨b, hb, hkey, hmem⟩ :=
      foldl_results_reported db (electionCandidates db eid) [] c (Or.inl hc)
    exact ⟨_, List.mem_map_of_mem _ hb, hmem⟩
  · intro c hc hcp
    obtain ⟨b, hb, hkey, hmem⟩ :=
      foldl_results_reported db (electionCandidates db eid) [] c (Or.inl hc)
    have hkey0 : b.party_id = 0 := by
      rw [hkey]
      simp [bucketKey, partyOf, hcp]
    have hnames :=
      foldl_results_indep db hparties (electionCandidates db eid) []
        (by simp [IndepOK]) b hb hkey0
    exact ⟨_, List.mem_map_of_mem _ hb, hmem, hnames.1, hnames.2⟩

/-- Witness for C8: results of the sample election after the sample vote,
with one vote for the party candidate and none for the independent. -/
theorem claim_C8_election_results_witness :
    ∃ data,
      get_election_results sampleDBv 1 =
        .success data "Election results retrieved successfully" ∧
      data.total_votes =
        (sampleDBv.votes.filter (fun v => v.election_id == 1)).length ∧
      (∀ r ∈ data.party_results,
        r.total_votes = (r.candidates.map (fun q => q.2)).sum) ∧
      (∀ r ∈ data.party_results,
        r.percentage =
          if data.total_votes > 0 then
            (r.total_votes : ℚ) / (data.total_votes : ℚ) * 100
          else 0) ∧
      (∀ c ∈ electionCandidates sampleDBv 1,
        ∃ r ∈ data.party_results,
          (c, countVotesFor sampleDBv c.id) ∈ r.candidates) ∧
      (∀ c ∈ electionCandidates sampleDBv 1, c.party_id = none →
        ∃ r ∈ data.party_results,
          (c, countVotesFor sampleDBv c.id) ∈ r.candidates ∧
            r.party_name = "Independent" ∧ r.party_acronym = "IND") :=
  claim_C8_election_results sampleDBv 1 sampleElection (by decide) (by decide)

end EVoting
